import Mathlib

/-!
Verification of the request-validation contract layer of `src/main.py`
(a FastAPI application).  Handlers are embedded as pure Lean functions on
typed values; the framework's per-field validation (type coercion, declared
constraints, aggregation of all field errors) is embedded as explicit
validator functions returning `Except (List FieldError)`.

Numbers: Python ints are `Int`; the float values appearing in the declared
constraints and examples (10.5, 10.4, prices, taxes) are exactly
representable, so floats are modelled as `ℚ`.  Raw wire values are
`String`s (or `Option String` when the parameter may be absent).
-/

/-- A JSON-like response value; handler results are association lists of
string keys to such values. -/
inductive JValue
  | null
  | str (s : String)
  | int (n : Int)
  | rat (q : ℚ)
  | bool (b : Bool)
  | strList (l : List String)
deriving DecidableEq, Repr

/-- The kind of one field-level validation failure, following the error
taxonomy of the validation layer. -/
inductive ErrKind
  | missing
  | typeCoercion
  | constraint (c : String)
  | unexpected
  | custom (msg : String)
deriving DecidableEq, Repr

/-- One field-level validation error: the offending field and the kind of
failure. -/
structure FieldError where
  field : String
  kind : ErrKind
deriving DecidableEq, Repr

instance {ε α : Type} [DecidableEq ε] [DecidableEq α] : DecidableEq (Except ε α) := fun a b =>
  match a, b with
  | .ok x, .ok y =>
    if h : x = y then .isTrue (by rw [h])
    else .isFalse (by intro he; injection he; contradiction)
  | .ok _, .error _ => .isFalse (by intro h; exact Except.noConfusion h)
  | .error _, .ok _ => .isFalse (by intro h; exact Except.noConfusion h)
  | .error e, .error f =>
    if h : e = f then .isTrue (by rw [h])
    else .isFalse (by intro he; injection he; contradiction)

/-- Renders an optional string as JSON (absent becomes null). -/
def jStrOpt : Option String → JValue
  | none => .null
  | some s => .str s

/-- Renders an optional rational as JSON (absent becomes null). -/
def jRatOpt : Option ℚ → JValue
  | none => .null
  | some q => .rat q

/-! ## Wire-value parsing (type coercion)

Structurally recursive parsers over `String.data`, modelling the coercion
of raw request strings to int, float and bool. -/

/-- The numeric value of a decimal digit character, if it is one. -/
def digit? (c : Char) : Option Nat :=
  if '0' ≤ c ∧ c ≤ '9' then some (c.toNat - '0'.toNat) else none

/-- Accumulates decimal digits left to right; fails on a non-digit. -/
def natFromDigits : List Char → Nat → Option Nat
  | [], acc => some acc
  | c :: cs, acc =>
    match digit? c with
    | some d => natFromDigits cs (acc * 10 + d)
    | none => none

/-- Parses a non-empty all-digit character list as a natural number. -/
def parseNatL (l : List Char) : Option Nat :=
  if l.isEmpty then none else natFromDigits l 0

/-- Coercion of a raw string to an integer (optional leading minus sign,
then decimal digits). -/
def parseIntS (s : String) : Option Int :=
  match s.data with
  | '-' :: rest => (parseNatL rest).map (fun n => -(n : Int))
  | l => (parseNatL l).map (fun n => (n : Int))

/-- Splits a character list at the first dot, keeping what follows it. -/
def splitDot : List Char → List Char × Option (List Char)
  | [] => ([], none)
  | c :: rest =>
    if c = '.' then ([], some rest)
    else
      let p := splitDot rest
      (c :: p.1, p.2)

/-- Ten to the given power, structurally. -/
def tenPow : Nat → Nat
  | 0 => 1
  | n + 1 => 10 * tenPow n

/-- Parses an unsigned decimal numeral, with an optional fractional part,
as an exact rational (built with mkRat so that kernel evaluation works). -/
def parseDecNonneg (l : List Char) : Option ℚ :=
  match splitDot l with
  | (a, none) => (parseNatL a).map (fun n => mkRat (Int.ofNat n) 1)
  | (a, some b) =>
    match parseNatL a, parseNatL b with
    | some n, some f =>
      some (mkRat (Int.ofNat (n * tenPow b.length + f)) (tenPow b.length))
    | _, _ => none

/-- Coercion of a raw string to a float value, modelled exactly as a
rational (optional sign, decimal digits, optional fractional part). -/
def parseDec (s : String) : Option ℚ :=
  match s.data with
  | '-' :: rest => (parseDecNonneg rest).map (fun q => -q)
  | l => parseDecNonneg l

/-- Lowercases an ASCII letter. -/
def lowerChar (c : Char) : Char :=
  if 'A' ≤ c ∧ c ≤ 'Z' then Char.ofNat (c.toNat + 32) else c

/-- Coercion of a raw string to a boolean, accepting the usual truthy and
falsy spellings case-insensitively. -/
def parseBool (s : String) : Option Bool :=
  let t := s.data.map lowerChar
  if t = "1".data ∨ t = "true".data ∨ t = "t".data ∨ t = "yes".data ∨
      t = "y".data ∨ t = "on".data then some true
  else if t = "0".data ∨ t = "false".data ∨ t = "f".data ∨ t = "no".data ∨
      t = "n".data ∨ t = "off".data then some false
  else none

/-- Whether a string contains a space character (Python `" " in v`). -/
def hasSpace (s : String) : Bool :=
  s.data.any (fun c => c = ' ')

/-! ## Generic validation plumbing

Each field is validated as coercion followed by a constraint check on the
typed value; a route's fields are validated independently and all field
errors are collected (never short-circuited at the first failing field). -/

/-- Runs a constraint check on an already-typed value. -/
def runCheck {α : Type} (c : α → Option FieldError) (a : α) : Except FieldError α :=
  match c a with
  | some e => .error e
  | none => .ok a

/-- Combines two independently validated fields, collecting all errors. -/
def combine2 {α β : Type} (a : Except FieldError α) (b : Except FieldError β) :
    Except (List FieldError) (α × β) :=
  match a, b with
  | .ok x, .ok y => .ok (x, y)
  | .error e, .ok _ => .error [e]
  | .ok _, .error f => .error [f]
  | .error e, .error f => .error [e, f]

/-- Combines four independently validated fields, collecting all errors. -/
def combine4 {α β γ δ : Type} (a : Except FieldError α) (b : Except FieldError β)
    (c : Except FieldError γ) (d : Except FieldError δ) :
    Except (List FieldError) (α × β × γ × δ) :=
  match a, b, c, d with
  | .ok x, .ok y, .ok z, .ok w => .ok (x, y, z, w)
  | _, _, _, _ =>
    .error ((match a with | .error e => [e] | .ok _ => []) ++
            (match b with | .error e => [e] | .ok _ => []) ++
            (match c with | .error e => [e] | .ok _ => []) ++
            (match d with | .error e => [e] | .ok _ => []))

/-- The field names reported by one field's validation outcome. -/
def errFields {α : Type} : Except FieldError α → List String
  | .error e => [e.field]
  | .ok _ => []

/-- The dispatcher: invokes the handler only on a fully valid input;
the second component counts how many times the handler was invoked. -/
def dispatch {α : Type} (v : Except (List FieldError) α)
    (h : α → List (String × JValue)) :
    Except (List FieldError) (List (String × JValue)) × Nat :=
  match v with
  | .ok a => (.ok (h a), 1)
  | .error e => (.error e, 0)

/-! ## Route GET /sizes/\{item_id\}  (src/main.py lines 144-151)

Path parameter item_id: int with ge=1, le=1000.
Query parameter size: float with gt=0, lt=10.5 (10.5 = 21/2 exactly). -/

/-- Constraint check for the sizes route's item_id (ge=1, le=1000). -/
def cItemId (n : Int) : Option FieldError :=
  if n < 1 then some ⟨"item_id", .constraint "ge"⟩
  else if 1000 < n then some ⟨"item_id", .constraint "le"⟩
  else none

/-- Validation of the raw item_id path segment for the sizes route. -/
def vItemId (r : String) : Except FieldError Int :=
  match parseIntS r with
  | none => .error ⟨"item_id", .typeCoercion⟩
  | some n => runCheck cItemId n

/-- Constraint check for the size query parameter (gt=0, lt=10.5). -/
def cSize (q : ℚ) : Option FieldError :=
  if q ≤ 0 then some ⟨"size", .constraint "gt"⟩
  else if mkRat 21 2 ≤ q then some ⟨"size", .constraint "lt"⟩
  else none

/-- Validation of the raw size query parameter: required, float-coerced,
then bounds-checked. -/
def vSize (r : Option String) : Except FieldError ℚ :=
  match r with
  | none => .error ⟨"size", .missing⟩
  | some s =>
    match parseDec s with
    | none => .error ⟨"size", .typeCoercion⟩
    | some q => runCheck cSize q

/-- The typed values of a validated GET /sizes request. -/
structure SizeParams where
  item_id : Int
  size : ℚ
deriving DecidableEq, Repr

/-- Validation of the whole sizes schema: both fields independently, all
errors collected. -/
def validate_sizes (rI : String) (rS : Option String) :
    Except (List FieldError) SizeParams :=
  match combine2 (vItemId rI) (vSize rS) with
  | .ok p => .ok ⟨p.1, p.2⟩
  | .error e => .error e

/-- Handler of GET /sizes/\{item_id\}: echoes both typed values. -/
def get_size (p : SizeParams) : List (String × JValue) :=
  [("item_id", .int p.item_id), ("size", .rat p.size)]

/-- Full dispatch of a raw GET /sizes request. -/
def dispatchSizes (rI : String) (rS : Option String) :
    Except (List FieldError) (List (String × JValue)) × Nat :=
  dispatch (validate_sizes rI rS) get_size

/-- Spec-side description of which fields of a raw GET /sizes request
violate a declared constraint (missing, uncoercible, or out of bounds). -/
def sizeViolations (rI : String) (rS : Option String) : List String :=
  (match parseIntS rI with
   | none => ["item_id"]
   | some n => if n < 1 then ["item_id"] else if 1000 < n then ["item_id"] else []) ++
  (match rS with
   | none => ["size"]
   | some s =>
     match parseDec s with
     | none => ["size"]
     | some q => if q ≤ 0 then ["size"] else if mkRat 21 2 ≤ q then ["size"] else [])

/-! ### Helper lemmas -/

theorem runCheck_ok {α : Type} {c : α → Option FieldError} {a b : α}
    (h : runCheck c a = .ok b) : b = a ∧ c a = none := by
  unfold runCheck at h
  cases hc : c a <;> rw [hc] at h <;> simp_all

theorem runCheck_of_none {α : Type} {c : α → Option FieldError} {a : α}
    (h : c a = none) : runCheck c a = .ok a := by
  unfold runCheck
  rw [h]

theorem combine2_ok_iff {α β : Type} {a : Except FieldError α}
    {b : Except FieldError β} {x : α} {y : β} :
    combine2 a b = .ok (x, y) ↔ a = .ok x ∧ b = .ok y := by
  cases a <;> cases b <;> simp [combine2]

theorem vItemId_ok_iff {r : String} {n : Int} :
    vItemId r = .ok n ↔ parseIntS r = some n ∧ 1 ≤ n ∧ n ≤ 1000 := by
  unfold vItemId
  cases hp : parseIntS r with
  | none => simp
  | some m =>
    unfold runCheck cItemId
    dsimp only
    split_ifs with h1 h2 <;>
      simp only [reduceCtorEq, false_iff, Option.some.injEq, Except.ok.injEq] <;>
      omega

theorem vSize_ok_iff {r : Option String} {q : ℚ} :
    vSize r = .ok q ↔ r.bind parseDec = some q ∧ 0 < q ∧ q < mkRat 21 2 := by
  unfold vSize
  cases r with
  | none => simp
  | some s =>
    dsimp only
    cases hp : parseDec s with
    | none => simp [hp]
    | some m =>
      unfold runCheck cSize
      dsimp only
      split_ifs with h1 h2
      · simp only [reduceCtorEq, false_iff]
        rintro ⟨hb, h0, hlt⟩
        simp [hp] at hb
        subst hb
        linarith
      · simp only [reduceCtorEq, false_iff]
        rintro ⟨hb, h0, hlt⟩
        simp [hp] at hb
        subst hb
        linarith
      · simp only [Except.ok.injEq]
        constructor
        · rintro rfl
          exact ⟨by simp [hp], not_le.mp h1, not_le.mp h2⟩
        · rintro ⟨hb, _, _⟩
          simp [hp] at hb
          exact hb

theorem validate_sizes_ok_iff {rI : String} {rS : Option String} {p : SizeParams} :
    validate_sizes rI rS = .ok p ↔ vItemId rI = .ok p.item_id ∧ vSize rS = .ok p.size := by
  unfold validate_sizes
  cases h : combine2 (vItemId rI) (vSize rS) with
  | ok v =>
    obtain ⟨x, y⟩ := v
    rw [combine2_ok_iff] at h
    obtain ⟨hx, hy⟩ := h
    obtain ⟨p1, p2⟩ := p
    dsimp only
    simp only [Except.ok.injEq, SizeParams.mk.injEq]
    constructor
    · rintro ⟨rfl, rfl⟩
      exact ⟨hx, hy⟩
    · rintro ⟨h1, h2⟩
      rw [hx] at h1
      rw [hy] at h2
      injection h1 with h1
      injection h2 with h2
      exact ⟨h1, h2⟩
  | error e =>
    dsimp only
    simp only [reduceCtorEq, false_iff, not_and]
    intro h1 h2
    rw [combine2_ok_iff.mpr ⟨h1, h2⟩] at h
    exact absurd h (by simp)

/-- The violation list mirrors the per-field validator outcomes. -/
theorem sizeViolations_eq (rI : String) (rS : Option String) :
    sizeViolations rI rS = errFields (vItemId rI) ++ errFields (vSize rS) := by
  unfold sizeViolations
  congr 1
  · unfold vItemId errFields runCheck cItemId
    cases parseIntS rI with
    | none => rfl
    | some n =>
      dsimp only
      split_ifs <;> rfl
  · unfold vSize errFields runCheck cSize
    cases rS with
    | none => rfl
    | some s =>
      dsimp only
      cases parseDec s with
      | none => rfl
      | some q =>
        dsimp only
        split_ifs <;> rfl

/-- Helper: if the field combination errors, the whole validation errors. -/
theorem validate_sizes_error {rI : String} {rS : Option String} {e : List FieldError}
    (h : combine2 (vItemId rI) (vSize rS) = .error e) :
    validate_sizes rI rS = .error e := by
  unfold validate_sizes
  rw [h]

/-- Claim C1: for every raw GET /sizes request violating at least one
declared constraint, the handler is never invoked (invocation count 0) and
the validation-failure response enumerates every violated field, not just
the first. -/
theorem claim_C1 (rI : String) (rS : Option String)
    (h : sizeViolations rI rS ≠ []) :
    (dispatchSizes rI rS).2 = 0 ∧
      ∃ errs, validate_sizes rI rS = .error errs ∧
        ∀ f ∈ sizeViolations rI rS, ∃ e ∈ errs, e.field = f := by
  cases hI : vItemId rI with
  | ok x =>
    cases hS : vSize rS with
    | ok y =>
      exfalso
      apply h
      rw [sizeViolations_eq, hI, hS]
      rfl
    | error e2 =>
      have hc : combine2 (vItemId rI) (vSize rS) = .error [e2] := by
        rw [hI, hS]
        rfl
      have hv : validate_sizes rI rS = .error [e2] := validate_sizes_error hc
      refine ⟨?_, [e2], hv, ?_⟩
      · unfold dispatchSizes dispatch
        rw [hv]
      · intro f hf
        rw [sizeViolations_eq, hI, hS] at hf
        simp [errFields] at hf
        subst hf
        exact ⟨e2, by simp⟩
  | error e1 =>
    cases hS : vSize rS with
    | ok y =>
      have hc : combine2 (vItemId rI) (vSize rS) = .error [e1] := by
        rw [hI, hS]
        rfl
      have hv : validate_sizes rI rS = .error [e1] := validate_sizes_error hc
      refine ⟨?_, [e1], hv, ?_⟩
      · unfold dispatchSizes dispatch
        rw [hv]
      · intro f hf
        rw [sizeViolations_eq, hI, hS] at hf
        simp [errFields] at hf
        subst hf
        exact ⟨e1, by simp⟩
    | error e2 =>
      have hc : combine2 (vItemId rI) (vSize rS) = .error [e1, e2] := by
        rw [hI, hS]
        rfl
      have hv : validate_sizes rI rS = .error [e1, e2] := validate_sizes_error hc
      refine ⟨?_, [e1, e2], hv, ?_⟩
      · unfold dispatchSizes dispatch
        rw [hv]
      · intro f hf
        rw [sizeViolations_eq, hI, hS] at hf
        simp [errFields] at hf
        rcases hf with rfl | rfl
        · exact ⟨e1, by simp⟩
        · exact ⟨e2, by simp⟩

/-- Witness for C1 at the claim's own example: item_id = 2000 (out of
[1,1000]) together with size = 10.5 (not below the exclusive upper bound)
is rejected without invoking the handler, and both fields are reported. -/
theorem claim_C1_witness :
    sizeViolations "2000" (some "10.5") ≠ [] ∧
    ((dispatchSizes "2000" (some "10.5")).2 = 0 ∧
      ∃ errs, validate_sizes "2000" (some "10.5") = .error errs ∧
        ∀ f ∈ sizeViolations "2000" (some "10.5"), ∃ e ∈ errs, e.field = f) :=
  ⟨by decide, claim_C1 "2000" (some "10.5") (by decide)⟩

/-- Claim C5: GET /sizes validation succeeds exactly when item_id is an
integer with 1 ≤ item_id ≤ 1000 (inclusive) and size is a float with
0 < size < 10.5 (both bounds exclusive); size = 10.5 is rejected,
size = 10.4 is accepted, and on success the handler is invoked once and
returns the object with keys item_id and size. -/
theorem claim_C5 :
    (∀ (rI : String) (rS : Option String) (p : SizeParams),
        validate_sizes rI rS = .ok p ↔
          parseIntS rI = some p.item_id ∧ rS.bind parseDec = some p.size ∧
          1 ≤ p.item_id ∧ p.item_id ≤ 1000 ∧ 0 < p.size ∧ p.size < mkRat 21 2) ∧
    (∀ (rI : String) (rS : Option String) (p : SizeParams),
        validate_sizes rI rS = .ok p →
          dispatchSizes rI rS =
            (.ok [("item_id", .int p.item_id), ("size", .rat p.size)], 1)) ∧
    validate_sizes "5" (some "10.5") = .error [⟨"size", .constraint "lt"⟩] ∧
    validate_sizes "5" (some "10.4") = .ok ⟨5, mkRat 52 5⟩ := by
  refine ⟨?_, ?_, by decide, by decide⟩
  · intro rI rS p
    rw [validate_sizes_ok_iff, vItemId_ok_iff, vSize_ok_iff]
    tauto
  · intro rI rS p h
    unfold dispatchSizes dispatch
    rw [h]
    rfl

/-- Witness for C5: size = 10.4 with item_id = 5 is accepted and the
handler echoes both values. -/
theorem claim_C5_witness :
    dispatchSizes "5" (some "10.4") =
      (.ok [("item_id", .int 5), ("size", .rat (mkRat 52 5))], 1) :=
  claim_C5.2.1 "5" (some "10.4") ⟨5, mkRat 52 5⟩ (by decide)

/-! ## Route GET /validate/  (src/main.py lines 124-133)

The custom predicate no_spaces rejects any string containing a space;
it runs as an after-validator on the already-coerced text query value. -/

/-- The no_spaces custom validator (src/main.py lines 124-127): rejects a
value containing a space, with the message it raises. -/
def no_spaces (v : String) : Except String String :=
  if hasSpace v then .error "Value must not contain spaces" else .ok v

/-- Constraint check for the text query value, derived from no_spaces. -/
def cText (s : String) : Option FieldError :=
  match no_spaces s with
  | .error m => some ⟨"text", .custom m⟩
  | .ok _ => none

/-- Validation of the required text query parameter. -/
def vText (r : Option String) : Except FieldError String :=
  match r with
  | none => .error ⟨"text", .missing⟩
  | some s => runCheck cText s

/-- Validation of the whole GET /validate/ schema (one field). -/
def validate_text (r : Option String) : Except (List FieldError) String :=
  match vText r with
  | .ok s => .ok s
  | .error e => .error [e]

/-- Handler of GET /validate/: echoes the text. -/
def validate_input (text : String) : List (String × JValue) :=
  [("text", .str text)]

/-! ## Routes POST /items/, PUT /items/\{item_id\}, GET /items/\{item_id\}
(src/main.py lines 61-90) -/

/-- The Item body model (src/main.py lines 61-65); description and tax are
optional with default None. -/
structure Item where
  name : String
  description : Option String
  price : ℚ
  tax : Option ℚ
deriving DecidableEq, Repr

/-- The dict of an Item's fields, as serialized (absent optionals are
null). -/
def itemDict (it : Item) : List (String × JValue) :=
  [("name", .str it.name), ("description", jStrOpt it.description),
   ("price", .rat it.price), ("tax", jRatOpt it.tax)]

/-- Handler of POST /items/ (src/main.py lines 67-73): echoes the item
dict and adds price_with_tax = price + tax only when tax is present. -/
def create_item (it : Item) : List (String × JValue) :=
  match it.tax with
  | some t => itemDict it ++ [("price_with_tax", .rat (it.price + t))]
  | none => itemDict it

/-- The entry added for q under Python truthiness: present only for a
supplied, non-empty string. -/
def qEntry : Option String → List (String × JValue)
  | some s => if s = "" then [] else [("q", .str s)]
  | none => []

/-- Handler of PUT /items/\{item_id\} (src/main.py lines 75-80): item_id
plus the item dict, then q added only if q is truthy. -/
def update_item (item_id : Int) (it : Item) (q : Option String) :
    List (String × JValue) :=
  ([("item_id", .int item_id)] ++ itemDict it) ++ qEntry q

/-- Handler of GET /items/\{item_id\} (src/main.py lines 82-90): item_id,
then q added only if q is truthy (the query arrives under alias
item-query). -/
def read_item (item_id : Int) (q : Option String) : List (String × JValue) :=
  [("item_id", .int item_id)] ++ qEntry q

/-- Claim C7: GET /validate/ fails with the custom validation error exactly
when the supplied text contains at least one space character; a space-free
text is accepted and the handler responds with the text echoed. -/
theorem claim_C7 :
    (∀ s : String,
        (validate_text (some s) =
            .error [⟨"text", .custom "Value must not contain spaces"⟩] ↔
          ' ' ∈ s.data) ∧
        (' ' ∉ s.data →
          dispatch (validate_text (some s)) validate_input =
            (.ok [("text", .str s)], 1))) ∧
    validate_text (some "Hello World") =
      .error [⟨"text", .custom "Value must not contain spaces"⟩] ∧
    validate_text (some "HelloWorld") = .ok "HelloWorld" := by
  refine ⟨?_, by decide, by decide⟩
  intro s
  have hs : hasSpace s = true ↔ ' ' ∈ s.data := by
    simp [hasSpace, List.any_eq_true]
  cases h : hasSpace s with
  | false =>
    have hn : ' ' ∉ s.data := by
      intro hm
      have ht := hs.mpr hm
      rw [h] at ht
      exact Bool.noConfusion ht
    constructor
    · simp only [validate_text, vText, runCheck, cText, no_spaces, h,
        if_false, Bool.false_eq_true]
      constructor
      · intro he
        exact absurd he (by simp)
      · intro hm
        exact absurd hm hn
    · intro _
      simp [dispatch, validate_text, vText, runCheck, cText, no_spaces, h,
        validate_input]
  | true =>
    have hm : ' ' ∈ s.data := hs.mp h
    constructor
    · constructor
      · intro _
        exact hm
      · intro _
        simp [validate_text, vText, runCheck, cText, no_spaces, h]
    · intro hn
      exact absurd hm hn

/-- Claim C4: the POST /items/ response consists of the item's fields
(description and tax serialized as null when absent) plus a price_with_tax
key equal to price + tax exactly when tax is present; with tax absent the
key does not occur. -/
theorem claim_C4 (it : Item) :
    List.lookup "name" (create_item it) = some (.str it.name) ∧
    List.lookup "description" (create_item it) = some (jStrOpt it.description) ∧
    List.lookup "price" (create_item it) = some (.rat it.price) ∧
    List.lookup "tax" (create_item it) = some (jRatOpt it.tax) ∧
    (create_item it).map Prod.fst =
      ["name", "description", "price", "tax"] ++
        (match it.tax with | some _ => ["price_with_tax"] | none => []) ∧
    (match it.tax with
     | some t =>
       List.lookup "price_with_tax" (create_item it) = some (.rat (it.price + t))
     | none => List.lookup "price_with_tax" (create_item it) = none) := by
  obtain ⟨n, d, pr, tx⟩ := it
  cases tx with
  | none => exact ⟨rfl, rfl, rfl, rfl, rfl, rfl⟩
  | some t => exact ⟨rfl, rfl, rfl, rfl, rfl, rfl⟩

/-- Claim C4 witness at the spec's own example (name a, price 10, tax 2):
the response carries price_with_tax 12; with no tax the key is absent. -/
theorem claim_C4_example :
    create_item ⟨"a", none, 10, some 2⟩ =
      [("name", .str "a"), ("description", .null), ("price", .rat 10),
       ("tax", .rat 2), ("price_with_tax", .rat 12)] ∧
    List.lookup "price_with_tax" (create_item ⟨"a", none, 10, none⟩) = none := by
  constructor
  · show itemDict ⟨"a", none, 10, some 2⟩ ++ [("price_with_tax", .rat (10 + 2))] = _
    norm_num [itemDict, jStrOpt, jRatOpt]
  · rfl

/-- Claim C10: for GET /items/\{item_id\} and PUT /items/\{item_id\}, the
q key appears in the response exactly when q was supplied as a non-empty
string (Python truthiness: an empty string behaves like an absent q), and
every other response entry is independent of q. -/
theorem claim_C10 :
    (∀ (i : Int) (q : Option String),
        (List.lookup "q" (read_item i q) ≠ none ↔ ∃ s, q = some s ∧ s ≠ "") ∧
        List.lookup "item_id" (read_item i q) = some (.int i) ∧
        (read_item i q).filter (fun kv => !(kv.1 == "q")) = read_item i none) ∧
    (∀ (i : Int) (it : Item) (q : Option String),
        (List.lookup "q" (update_item i it q) ≠ none ↔ ∃ s, q = some s ∧ s ≠ "") ∧
        (update_item i it q).filter (fun kv => !(kv.1 == "q")) =
          update_item i it none) := by
  constructor
  · intro i q
    match q with
    | none => refine ⟨by simp [read_item, qEntry, List.lookup], rfl, rfl⟩
    | some s =>
      by_cases h : s = ""
      · subst h
        refine ⟨by simp [read_item, qEntry, List.lookup], rfl, rfl⟩
      · refine ⟨?_, rfl, ?_⟩
        · simp [read_item, qEntry, h, List.lookup]
        · simp [read_item, qEntry, h, List.filter]
  · intro i it q
    obtain ⟨n, d, pr, tx⟩ := it
    match q with
    | none =>
      refine ⟨by simp [update_item, qEntry, itemDict, List.lookup], rfl⟩
    | some s =>
      by_cases h : s = ""
      · subst h
        refine ⟨by simp [update_item, qEntry, itemDict, List.lookup], rfl⟩
      · refine ⟨?_, ?_⟩
        · simp [update_item, qEntry, itemDict, h, List.lookup]
        · simp [update_item, qEntry, itemDict, h, List.filter]

/-- Witness for C7: HelloWorld has no space, is accepted, and the handler
is invoked once. -/
theorem claim_C7_witness :
    ' ' ∉ "HelloWorld".data ∧
    dispatch (validate_text (some "HelloWorld")) validate_input =
      (.ok [("text", .str "HelloWorld")], 1) :=
  ⟨by decide, (claim_C7.1 "HelloWorld").2 (by decide)⟩

/-! ## Route GET /users/\{user_id\}/items/\{item_id\}  (src/main.py
lines 32-39)

In the source, user_id is typed int and item_id is typed str; q is an
optional string defaulting to None and short a bool defaulting to False. -/

/-- The typed values of a validated GET /users/../items/.. request. -/
structure UserItemParams where
  user_id : Int
  item_id : String
  q : Option String
  short : Bool
deriving DecidableEq, Repr

/-- Validation of the user_id path segment: int coercion, no constraints. -/
def vUserId (r : String) : Except FieldError Int :=
  match parseIntS r with
  | none => .error ⟨"user_id", .typeCoercion⟩
  | some n => runCheck (fun _ => none) n

/-- Validation of the item_id path segment: it is a string, so any
segment is accepted unchanged. -/
def vItemIdStr (r : String) : Except FieldError String :=
  runCheck (fun _ => none) r

/-- Validation of the optional q query parameter (default absent). -/
def vQ (r : Option String) : Except FieldError (Option String) :=
  runCheck (fun _ => none) r

/-- Validation of the short query parameter: bool coercion, default
false when absent. -/
def vShort (r : Option String) : Except FieldError Bool :=
  match r with
  | none => runCheck (fun _ => none) false
  | some s =>
    match parseBool s with
    | none => .error ⟨"short", .typeCoercion⟩
    | some b => runCheck (fun _ => none) b

/-- Validation of the whole GET /users/../items/.. schema. -/
def validate_user_item (rU rI : String) (rQ rShort : Option String) :
    Except (List FieldError) UserItemParams :=
  match combine4 (vUserId rU) (vItemIdStr rI) (vQ rQ) (vShort rShort) with
  | .ok p => .ok ⟨p.1, p.2.1, p.2.2.1, p.2.2.2⟩
  | .error e => .error e

/-- Handler of GET /users/\{user_id\}/items/\{item_id\}: echoes all four
typed values. -/
def read_user_item (p : UserItemParams) : List (String × JValue) :=
  [("user_id", .int p.user_id), ("item_id", .str p.item_id),
   ("q", jStrOpt p.q), ("short", .bool p.short)]

/-- Counterexample to C3 as stated: a non-integer item_id path segment is
not rejected; with user_id 5 and item_id abc validation succeeds, because
in the source item_id is typed str (it is user_id that is the int). -/
theorem claim_C3_counterexample :
    validate_user_item "5" "abc" none none = .ok ⟨5, "abc", none, false⟩ := by
  decide

/-- Claim C3 as amended: user_id is typed int (a non-integer user_id path
segment is a type-coercion validation failure), item_id is typed str so
any path segment is accepted, q is an optional string defaulting to
absent, short is a bool defaulting to false, and on success the handler
echoes user_id, item_id, q and short. -/
theorem claim_C3_amended :
    (∀ (rU rI : String) (rQ rS : Option String),
        parseIntS rU = none →
          ∃ errs, validate_user_item rU rI rQ rS = .error errs ∧
            (⟨"user_id", .typeCoercion⟩ : FieldError) ∈ errs) ∧
    (∀ (rU rI : String) (rQ : Option String) (n : Int),
        parseIntS rU = some n →
          validate_user_item rU rI rQ none = .ok ⟨n, rI, rQ, false⟩) ∧
    (∀ (rU rI sS : String) (rQ : Option String) (n : Int) (b : Bool),
        parseIntS rU = some n → parseBool sS = some b →
          validate_user_item rU rI rQ (some sS) = .ok ⟨n, rI, rQ, b⟩) ∧
    (∀ p : UserItemParams,
        read_user_item p =
          [("user_id", .int p.user_id), ("item_id", .str p.item_id),
           ("q", jStrOpt p.q), ("short", .bool p.short)]) := by
  refine ⟨?_, ?_, ?_, fun p => rfl⟩
  · intro rU rI rQ rS h
    have hu : vUserId rU = .error ⟨"user_id", .typeCoercion⟩ := by
      unfold vUserId
      rw [h]
    unfold validate_user_item
    rw [hu]
    cases hS : vShort rS with
    | ok b => exact ⟨[⟨"user_id", .typeCoercion⟩], rfl, by simp⟩
    | error e2 => exact ⟨[⟨"user_id", .typeCoercion⟩, e2], rfl, by simp⟩
  · intro rU rI rQ n h
    have hu : vUserId rU = .ok n := by
      unfold vUserId
      rw [h]
      rfl
    unfold validate_user_item
    rw [hu]
    rfl
  · intro rU rI sS rQ n b hU hB
    have hu : vUserId rU = .ok n := by
      unfold vUserId
      rw [hU]
      rfl
    have hb : vShort (some sS) = .ok b := by
      unfold vShort
      dsimp only
      rw [hB]
      rfl
    unfold validate_user_item
    rw [hu, hb]
    rfl

/-- Witness for the amended C3: user_id 7 with item_id abc, no q, no
short resolves to the echoed defaults; and a non-integer user_id xyz is
rejected with a type-coercion error on user_id. -/
theorem claim_C3_witness :
    validate_user_item "7" "abc" none none = .ok ⟨7, "abc", none, false⟩ ∧
    ∃ errs, validate_user_item "xyz" "abc" none none = .error errs ∧
      (⟨"user_id", .typeCoercion⟩ : FieldError) ∈ errs :=
  ⟨claim_C3_amended.2.1 "7" "abc" none 7 (by decide),
   claim_C3_amended.1 "xyz" "abc" none none (by decide)⟩

/-! ## Route GET /items-filter/  (src/main.py lines 154-163)

A query-group model: limit int in (0,100] default 100, offset int ge 0
default 0, order_by a literal of created_at or updated_at defaulting to
created_at, tags a list of strings defaulting to empty. -/

/-- The typed values of a validated GET /items-filter/ request. -/
structure FilterParams where
  limit : Int
  offset : Int
  order_by : String
  tags : List String
deriving DecidableEq, Repr

/-- Constraint check for limit (gt=0, le=100). -/
def cLimit (n : Int) : Option FieldError :=
  if n ≤ 0 then some ⟨"limit", .constraint "gt"⟩
  else if 100 < n then some ⟨"limit", .constraint "le"⟩
  else none

/-- Validation of limit: default 100 when absent, else int coercion and
bounds. -/
def vLimit (r : Option String) : Except FieldError Int :=
  match r with
  | none => .ok 100
  | some s =>
    match parseIntS s with
    | none => .error ⟨"limit", .typeCoercion⟩
    | some n => runCheck cLimit n

/-- Constraint check for offset (ge=0). -/
def cOffset (n : Int) : Option FieldError :=
  if n < 0 then some ⟨"offset", .constraint "ge"⟩ else none

/-- Validation of offset: default 0 when absent, else int coercion and
bound. -/
def vOffset (r : Option String) : Except FieldError Int :=
  match r with
  | none => .ok 0
  | some s =>
    match parseIntS s with
    | none => .error ⟨"offset", .typeCoercion⟩
    | some n => runCheck cOffset n

/-- Constraint check for order_by: literal membership. -/
def cOrderBy (s : String) : Option FieldError :=
  if s = "created_at" ∨ s = "updated_at" then none
  else some ⟨"order_by", .constraint "literal"⟩

/-- Validation of order_by: default created_at when absent, else literal
membership. -/
def vOrderBy (r : Option String) : Except FieldError String :=
  match r with
  | none => .ok "created_at"
  | some s => runCheck cOrderBy s

/-- Validation of tags: every repetition collected in arrival order; the
elements are unconstrained strings (default: the empty list). -/
def vTags (r : List String) : Except FieldError (List String) :=
  runCheck (fun _ => none) r

/-- Validation of the whole GET /items-filter/ query group. -/
def validate_filter (rl ro rob : Option String) (rt : List String) :
    Except (List FieldError) FilterParams :=
  match combine4 (vLimit rl) (vOffset ro) (vOrderBy rob) (vTags rt) with
  | .ok p => .ok ⟨p.1, p.2.1, p.2.2.1, p.2.2.2⟩
  | .error e => .error e

/-- Handler of GET /items-filter/: returns the filter object itself. -/
def read_items_filter (p : FilterParams) : List (String × JValue) :=
  [("limit", .int p.limit), ("offset", .int p.offset),
   ("order_by", .str p.order_by), ("tags", .strList p.tags)]

/-- Helper: a successful four-field combination means every field was
individually valid. -/
theorem combine4_ok {α β γ δ : Type} {a : Except FieldError α}
    {b : Except FieldError β} {c : Except FieldError γ} {d : Except FieldError δ}
    {x : α} {y : β} {z : γ} {w : δ}
    (h : combine4 a b c d = .ok (x, y, z, w)) :
    a = .ok x ∧ b = .ok y ∧ c = .ok z ∧ d = .ok w := by
  cases a <;> cases b <;> cases c <;> cases d <;> simp_all [combine4]

/-- Helper: a validated limit is in (0, 100]. -/
theorem vLimit_ok {r : Option String} {n : Int} (h : vLimit r = .ok n) :
    0 < n ∧ n ≤ 100 := by
  unfold vLimit at h
  cases r with
  | none =>
    injection h with h
    omega
  | some s =>
    dsimp only at h
    cases hp : parseIntS s with
    | none => rw [hp] at h; exact absurd h (by simp)
    | some m =>
      rw [hp] at h
      obtain ⟨rfl, hc⟩ := runCheck_ok h
      unfold cLimit at hc
      split_ifs at hc <;> omega

/-- Helper: a validated offset is nonnegative. -/
theorem vOffset_ok {r : Option String} {n : Int} (h : vOffset r = .ok n) :
    0 ≤ n := by
  unfold vOffset at h
  cases r with
  | none =>
    injection h with h
    omega
  | some s =>
    dsimp only at h
    cases hp : parseIntS s with
    | none => rw [hp] at h; exact absurd h (by simp)
    | some m =>
      rw [hp] at h
      obtain ⟨rfl, hc⟩ := runCheck_ok h
      unfold cOffset at hc
      split_ifs at hc <;> omega

/-- Helper: a validated order_by is one of the two literals. -/
theorem vOrderBy_ok {r : Option String} {s : String} (h : vOrderBy r = .ok s) :
    s = "created_at" ∨ s = "updated_at" := by
  unfold vOrderBy at h
  cases r with
  | none =>
    injection h with h
    exact Or.inl h.symm
  | some t =>
    dsimp only at h
    obtain ⟨rfl, hc⟩ := runCheck_ok h
    unfold cOrderBy at hc
    split_ifs at hc with hd
    exact hd

/-- Claim C6: GET /items-filter/ with no query parameters validates to
every declared default, the handler responds with limit 100, offset 0,
order_by created_at and empty tags; and any successfully validated filter
satisfies limit in (0,100], offset nonnegative and order_by in the
declared literal set. -/
theorem claim_C6 :
    validate_filter none none none [] = .ok ⟨100, 0, "created_at", []⟩ ∧
    dispatch (validate_filter none none none []) read_items_filter =
      (.ok [("limit", .int 100), ("offset", .int 0),
            ("order_by", .str "created_at"), ("tags", .strList [])], 1) ∧
    (∀ (rl ro rob : Option String) (rt : List String) (p : FilterParams),
        validate_filter rl ro rob rt = .ok p →
          0 < p.limit ∧ p.limit ≤ 100 ∧ 0 ≤ p.offset ∧
            (p.order_by = "created_at" ∨ p.order_by = "updated_at")) := by
  refine ⟨rfl, rfl, ?_⟩
  intro rl ro rob rt p h
  unfold validate_filter at h
  cases hc : combine4 (vLimit rl) (vOffset ro) (vOrderBy rob) (vTags rt) with
  | ok v =>
    rw [hc] at h
    obtain ⟨x, y, z, w⟩ := v
    injection h with h
    subst h
    obtain ⟨h1, h2, h3, _⟩ := combine4_ok hc
    exact ⟨(vLimit_ok h1).1, (vLimit_ok h1).2, vOffset_ok h2, vOrderBy_ok h3⟩
  | error e =>
    rw [hc] at h
    exact absurd h (by simp)

/-- Witness for C6: supplied values limit 50, offset 3, order_by
updated_at with one tag validate and satisfy the declared bounds. -/
theorem claim_C6_witness :
    0 < (⟨50, 3, "updated_at", ["a"]⟩ : FilterParams).limit ∧
    (⟨50, 3, "updated_at", ["a"]⟩ : FilterParams).limit ≤ 100 ∧
    0 ≤ (⟨50, 3, "updated_at", ["a"]⟩ : FilterParams).offset ∧
    ((⟨50, 3, "updated_at", ["a"]⟩ : FilterParams).order_by = "created_at" ∨
      (⟨50, 3, "updated_at", ["a"]⟩ : FilterParams).order_by = "updated_at") :=
  claim_C6.2.2 (some "50") (some "3") (some "updated_at") ["a"]
    ⟨50, 3, "updated_at", ["a"]⟩ (by decide)

/-! ## Route PUT /process/\{item_id\}  (src/main.py lines 166-184)

Instants (datetime) are modelled as integer timestamps and durations
(timedelta) as integers, so that the add and subtract operations of the
handler are exact; clock times (repeat_at) are naturals; the UUID is kept
as its string form (the claim concerns valid requests only). -/

/-- Handler of PUT /process/\{item_id\}: echoes every input and adds
start_process = start_datetime + process_after and
duration = end_datetime - start_process. -/
def process_item (item_id : String) (start_datetime end_datetime : Int)
    (process_after : Int) (repeat_at : Option Nat) : List (String × JValue) :=
  let start_process := start_datetime + process_after
  let duration := end_datetime - start_process
  [("item_id", .str item_id), ("start_datetime", .int start_datetime),
   ("end_datetime", .int end_datetime), ("process_after", .int process_after),
   ("repeat_at", match repeat_at with | none => .null | some t => .int t),
   ("start_process", .int start_process), ("duration", .int duration)]

/-- Claim C8: for every valid PUT /process/\{item_id\} request the
response echoes all inputs and additionally carries
start_process = start_datetime + process_after and
duration = end_datetime - (start_datetime + process_after). -/
theorem claim_C8 (item_id : String) (sdt edt pa : Int) (rep : Option Nat) :
    List.lookup "item_id" (process_item item_id sdt edt pa rep) =
      some (.str item_id) ∧
    List.lookup "start_datetime" (process_item item_id sdt edt pa rep) =
      some (.int sdt) ∧
    List.lookup "end_datetime" (process_item item_id sdt edt pa rep) =
      some (.int edt) ∧
    List.lookup "process_after" (process_item item_id sdt edt pa rep) =
      some (.int pa) ∧
    List.lookup "repeat_at" (process_item item_id sdt edt pa rep) =
      some (match rep with | none => .null | some t => .int t) ∧
    List.lookup "start_process" (process_item item_id sdt edt pa rep) =
      some (.int (sdt + pa)) ∧
    List.lookup "duration" (process_item item_id sdt edt pa rep) =
      some (.int (edt - (sdt + pa))) := by
  cases rep with
  | none => exact ⟨rfl, rfl, rfl, rfl, rfl, rfl, rfl⟩
  | some t => exact ⟨rfl, rfl, rfl, rfl, rfl, rfl, rfl⟩

/-! ## Route GET /items/ (cookie group)  (src/main.py lines 204-231)

Two pydantic models named Cookies appear in the source: the first
(lines 207-210) with the default configuration, which ignores undeclared
cookies, and a second redeclaration (lines 226-231) with extra forbidden.
The route decorator at lines 217-219 evaluates its annotation when the
decorated function is defined, and at that moment only the first model
exists, so the route binds the lenient model; the strict redeclaration
never binds to any route. -/

/-- The typed cookie group: session_id required, the two trackers
optional. -/
structure Cookies where
  session_id : String
  fatebook_tracker : Option String
  googall_tracker : Option String
deriving DecidableEq, Repr

/-- First-match lookup of a cookie by name in the raw cookie list. -/
def lookupCookie (raw : List (String × String)) (k : String) : Option String :=
  match raw with
  | [] => none
  | (a, v) :: rest => if a = k then some v else lookupCookie rest k

/-- Validation of the required session_id cookie. -/
def vSessionId (raw : List (String × String)) : Except FieldError String :=
  match lookupCookie raw "session_id" with
  | none => .error ⟨"session_id", .missing⟩
  | some v => runCheck (fun _ => none) v

/-- Validation of an optional cookie member. -/
def vOptCookie (raw : List (String × String)) (k : String) :
    Except FieldError (Option String) :=
  runCheck (fun _ => none) (lookupCookie raw k)

/-- Combines three independently validated fields, collecting all errors. -/
def combine3 {α β γ : Type} (a : Except FieldError α) (b : Except FieldError β)
    (c : Except FieldError γ) : Except (List FieldError) (α × β × γ) :=
  match a, b, c with
  | .ok x, .ok y, .ok z => .ok (x, y, z)
  | _, _, _ =>
    .error ((match a with | .error e => [e] | .ok _ => []) ++
            (match b with | .error e => [e] | .ok _ => []) ++
            (match c with | .error e => [e] | .ok _ => []))

/-- The first Cookies model (src/main.py lines 207-210): the declared
members are validated and undeclared cookies are ignored (the pydantic
default configuration). -/
def validateCookiesLenient (raw : List (String × String)) :
    Except (List FieldError) Cookies :=
  match combine3 (vSessionId raw) (vOptCookie raw "fatebook_tracker")
      (vOptCookie raw "googall_tracker") with
  | .ok p => .ok ⟨p.1, p.2.1, p.2.2⟩
  | .error e => .error e

/-- Whether a cookie name is declared in the Cookies model. -/
def cookieDeclared (k : String) : Bool :=
  k == "session_id" || k == "fatebook_tracker" || k == "googall_tracker"

/-- The strict redeclaration (src/main.py lines 226-231, extra forbid):
additionally every undeclared cookie present yields an unexpected-field
error. -/
def validateCookiesStrict (raw : List (String × String)) :
    Except (List FieldError) Cookies :=
  let extras := (raw.filter (fun kv => !cookieDeclared kv.1)).map
    (fun kv => (⟨kv.1, .unexpected⟩ : FieldError))
  match validateCookiesLenient raw, extras with
  | .ok c, [] => .ok c
  | .ok _, es => .error es
  | .error e, es => .error (e ++ es)

/-- The validator actually bound to GET /items/ at registration time
(src/main.py lines 217-219): the first, lenient model, since the strict
one is declared only after the route. -/
def validate_cookies_route : List (String × String) → Except (List FieldError) Cookies :=
  validateCookiesLenient

/-- Handler of GET /items/ (cookie group): returns the cookie object. -/
def read_items_cookies (c : Cookies) : List (String × JValue) :=
  [("session_id", .str c.session_id),
   ("fatebook_tracker", jStrOpt c.fatebook_tracker),
   ("googall_tracker", jStrOpt c.googall_tracker)]

/-- Claim C2 evaluated on the code: a request with session_id present and
an undeclared cookie named tracker is accepted by the validator the route
actually binds (the lenient first model), with the extra cookie ignored,
while the never-bound strict model would have rejected it with an
unexpected-field error as the claim asserts. -/
theorem claim_C2_code_behavior :
    validate_cookies_route [("session_id", "abc"), ("tracker", "x")] =
      .ok ⟨"abc", none, none⟩ ∧
    validateCookiesStrict [("session_id", "abc"), ("tracker", "x")] =
      .error [⟨"tracker", .unexpected⟩] ∧
    dispatch (validate_cookies_route [("session_id", "abc"), ("tracker", "x")])
        read_items_cookies =
      (.ok [("session_id", .str "abc"), ("fatebook_tracker", .null),
            ("googall_tracker", .null)], 1) := by
  exact ⟨rfl, rfl, rfl⟩

/-! ## Idempotence of validation on typed values

Re-validating the typed values of a Validated Request runs each field's
constraint check directly on the already-typed value (the coercion step is
an identity on typed values). -/

/-- Re-validation of a typed GET /sizes request. -/
def revalidateSizes (p : SizeParams) : Except (List FieldError) SizeParams :=
  match combine2 (runCheck cItemId p.item_id) (runCheck cSize p.size) with
  | .ok v => .ok ⟨v.1, v.2⟩
  | .error e => .error e

/-- Re-validation of a typed GET /items-filter/ request. -/
def revalidateFilter (p : FilterParams) : Except (List FieldError) FilterParams :=
  match combine4 (runCheck cLimit p.limit) (runCheck cOffset p.offset)
      (runCheck cOrderBy p.order_by) (runCheck (fun _ => none) p.tags) with
  | .ok v => .ok ⟨v.1, v.2.1, v.2.2.1, v.2.2.2⟩
  | .error e => .error e

/-- Re-validation of a typed GET /users/../items/.. request (all its
constraints are coercions, which typed values already satisfy). -/
def revalidateUserItem (p : UserItemParams) : Except (List FieldError) UserItemParams :=
  match combine4 (runCheck (fun _ => none) p.user_id)
      (runCheck (fun _ => none) p.item_id) (runCheck (fun _ => none) p.q)
      (runCheck (fun _ => none) p.short) with
  | .ok v => .ok ⟨v.1, v.2.1, v.2.2.1, v.2.2.2⟩
  | .error e => .error e

/-- Re-validation of a typed GET /validate/ request (the custom predicate
runs again on the typed string). -/
def revalidateText (s : String) : Except (List FieldError) String :=
  match runCheck cText s with
  | .ok v => .ok v
  | .error e => .error [e]

/-- Re-validation of a typed GET /items/ cookie group. -/
def revalidateCookies (c : Cookies) : Except (List FieldError) Cookies :=
  match combine3 (runCheck (fun _ => none) c.session_id)
      (runCheck (fun _ => none) c.fatebook_tracker)
      (runCheck (fun _ => none) c.googall_tracker) with
  | .ok v => .ok ⟨v.1, v.2.1, v.2.2⟩
  | .error e => .error e

/-- Helper: a successfully validated item_id passes its check again. -/
theorem vItemId_check {r : String} {n : Int} (h : vItemId r = .ok n) :
    cItemId n = none := by
  obtain ⟨hp, h1, h2⟩ := vItemId_ok_iff.mp h
  unfold cItemId
  rw [if_neg (by omega), if_neg (by omega)]

/-- Helper: a successfully validated size passes its check again. -/
theorem vSize_check {r : Option String} {q : ℚ} (h : vSize r = .ok q) :
    cSize q = none := by
  obtain ⟨hp, h1, h2⟩ := vSize_ok_iff.mp h
  unfold cSize
  rw [if_neg (by linarith), if_neg (by linarith)]

/-- Helper: a successfully validated limit passes its check again. -/
theorem vLimit_check {r : Option String} {n : Int} (h : vLimit r = .ok n) :
    cLimit n = none := by
  obtain ⟨h1, h2⟩ := vLimit_ok h
  unfold cLimit
  rw [if_neg (by omega), if_neg (by omega)]

/-- Helper: a successfully validated offset passes its check again. -/
theorem vOffset_check {r : Option String} {n : Int} (h : vOffset r = .ok n) :
    cOffset n = none := by
  have h1 := vOffset_ok h
  unfold cOffset
  rw [if_neg (by omega)]

/-- Helper: a successfully validated order_by passes its check again. -/
theorem vOrderBy_check {r : Option String} {s : String} (h : vOrderBy r = .ok s) :
    cOrderBy s = none := by
  have h1 := vOrderBy_ok h
  unfold cOrderBy
  rw [if_pos h1]

/-- Claim C9: validation is idempotent on already-canonical typed values;
for each embedded route schema, whenever a raw request validates
successfully, re-validating the resulting typed values against the same
schema succeeds again and yields the same typed values. -/
theorem claim_C9 :
    (∀ (rI : String) (rS : Option String) (p : SizeParams),
        validate_sizes rI rS = .ok p → revalidateSizes p = .ok p) ∧
    (∀ (rl ro rob : Option String) (rt : List String) (p : FilterParams),
        validate_filter rl ro rob rt = .ok p → revalidateFilter p = .ok p) ∧
    (∀ (rU rI : String) (rQ rSh : Option String) (p : UserItemParams),
        validate_user_item rU rI rQ rSh = .ok p → revalidateUserItem p = .ok p) ∧
    (∀ (r : Option String) (s : String),
        validate_text r = .ok s → revalidateText s = .ok s) ∧
    (∀ (raw : List (String × String)) (c : Cookies),
        validate_cookies_route raw = .ok c → revalidateCookies c = .ok c) := by
  refine ⟨?_, ?_, ?_, ?_, ?_⟩
  · intro rI rS p h
    obtain ⟨hI, hS⟩ := validate_sizes_ok_iff.mp h
    unfold revalidateSizes
    rw [runCheck_of_none (vItemId_check hI), runCheck_of_none (vSize_check hS)]
    rfl
  · intro rl ro rob rt p h
    unfold validate_filter at h
    cases hc : combine4 (vLimit rl) (vOffset ro) (vOrderBy rob) (vTags rt) with
    | ok v =>
      rw [hc] at h
      obtain ⟨x, y, z, w⟩ := v
      injection h with h
      subst h
      obtain ⟨h1, h2, h3, _⟩ := combine4_ok hc
      unfold revalidateFilter
      rw [runCheck_of_none (vLimit_check h1), runCheck_of_none (vOffset_check h2),
        runCheck_of_none (vOrderBy_check h3), runCheck_of_none rfl]
      rfl
    | error e =>
      rw [hc] at h
      exact absurd h (by simp)
  · intro rU rI rQ rSh p h
    exact rfl
  · intro r s h
    unfold validate_text at h
    cases r with
    | none => exact absurd h (by simp [vText])
    | some t =>
      unfold vText at h
      dsimp only at h
      cases hct : cText t with
      | some e =>
        rw [runCheck, hct] at h
        exact absurd h (by simp)
      | none =>
        rw [runCheck_of_none hct] at h
        injection h with h
        subst h
        unfold revalidateText
        rw [runCheck_of_none hct]
  · intro raw c h
    exact rfl

/-- Witness for C9: each embedded schema, applied to a concrete
successfully validated raw request, re-validates its typed values to the
same typed values. -/
theorem claim_C9_witness :
    revalidateSizes ⟨5, mkRat 52 5⟩ = .ok ⟨5, mkRat 52 5⟩ ∧
    revalidateFilter ⟨100, 0, "created_at", []⟩ = .ok ⟨100, 0, "created_at", []⟩ ∧
    revalidateUserItem ⟨7, "abc", none, false⟩ = .ok ⟨7, "abc", none, false⟩ ∧
    revalidateText "HelloWorld" = .ok "HelloWorld" ∧
    revalidateCookies ⟨"abc", none, none⟩ = .ok ⟨"abc", none, none⟩ :=
  ⟨claim_C9.1 "5" (some "10.4") ⟨5, mkRat 52 5⟩ (by decide),
   claim_C9.2.1 none none none [] ⟨100, 0, "created_at", []⟩ (by decide),
   claim_C9.2.2.1 "7" "abc" none none ⟨7, "abc", none, false⟩ (by decide),
   claim_C9.2.2.2.1 (some "HelloWorld") "HelloWorld" (by decide),
   claim_C9.2.2.2.2 [("session_id", "abc")] ⟨"abc", none, none⟩ (by decide)⟩
